import Mathlib

/-!
Verification development for the SERP-parsing core of the GoogleScraper
repository (GoogleScraper/parsing.py).

The Python source is shallowly embedded below:

* character/string helpers model the Python standard-library primitives the
  source calls (str.strip, str.split, str.lower, int(...), urllib.parse.unquote,
  urllib.parse.urlparse netloc detection, and the two concrete regular
  expression shapes used by the parsers: a literal prefix, a lazy dot-star
  capture, and a literal suffix);
* the DOM produced by lxml is abstracted as a table of answers to compiled
  selector queries (first-match text content, first-match attribute value, and
  candidate node lists), because the CSS-to-XPath compilation and HTML parsing
  are external library calls;
* the Parser class hierarchy is embedded as explicit state passing: Parser
  state, the generic extraction loop of Parser._parse with its online
  deduplication and ranking, Parser.first_match and Parser.advanced_css, the
  engine-specific after_parsing normalizers of GoogleParser, BaiduParser and
  YahooParser (including the exact generator-with-deletion iteration semantics
  of iter_serp_items), and the engine-name registry.

Python exceptions are modelled with Except; Python None/str field values are
Option String, with the truthiness test distinguishing None and the empty
string from other strings.
-/

set_option maxRecDepth 20000

/-! ## Python string primitives -/

/-- Truthiness of a Python value that is either None or a string:
None and the empty string are falsy. -/
def isTruthy : Option String → Bool
  | none => false
  | some s => !(s.isEmpty)

/-- ASCII whitespace as stripped by str.strip() / split by str.split()
(the source only ever manipulates ASCII here; the unicode whitespace
accepted by Python beyond these characters is not exercised). -/
def isPyWs (c : Char) : Bool :=
  c = ' ' || c = '\t' || c = '\n' || c = '\r' || c = Char.ofNat 11 || c = Char.ofNat 12

/-- Model of str.strip(): drop leading and trailing whitespace. -/
def pyStripChars (l : List Char) : List Char :=
  ((l.dropWhile isPyWs).reverse.dropWhile isPyWs).reverse

def pyStrip (s : String) : String :=
  String.mk (pyStripChars s.data)

/-- Model of str.split() with no argument: split on runs of whitespace,
discarding empty tokens. The first argument accumulates the current token
in reverse. -/
def pySplitWsAux (cur : List Char) : List Char → List (List Char)
  | [] => if cur.isEmpty then [] else [cur.reverse]
  | c :: rest =>
    if isPyWs c then
      if cur.isEmpty then pySplitWsAux [] rest
      else cur.reverse :: pySplitWsAux [] rest
    else pySplitWsAux (c :: cur) rest

def pySplitWs (s : String) : List String :=
  (pySplitWsAux [] s.data).map String.mk

/-- ASCII lowercase, as str.lower() behaves on the ASCII engine names and
alias lists used by the registry. -/
def pyLowerChar (c : Char) : Char :=
  if 'A' ≤ c ∧ c ≤ 'Z' then Char.ofNat (c.toNat + 32) else c

def pyLower (s : String) : String :=
  String.mk (s.data.map pyLowerChar)

/-- Whether needle is a prefix of hay, over character lists. -/
def isPrefixL : List Char → List Char → Bool
  | [], _ => true
  | _ :: _, [] => false
  | a :: as, b :: bs => a = b && isPrefixL as bs

/-- Whether needle occurs anywhere in hay (the Python `in` operator on str). -/
def containsL (needle : List Char) : List Char → Bool
  | [] => isPrefixL needle []
  | c :: rest => isPrefixL needle (c :: rest) || containsL needle rest

def strContains (hay needle : String) : Bool :=
  containsL needle.data hay.data

def strStartsWith (s pre : String) : Bool :=
  isPrefixL pre.data s.data

def strEndsWith (s suf : String) : Bool :=
  isPrefixL suf.data.reverse s.data.reverse

/-- Characters of l before the first occurrence of needle; the whole list
when needle never occurs (str.split(sep)[0] for a non-empty sep). -/
def beforeFirstL (needle : List Char) : List Char → List Char
  | [] => []
  | c :: rest =>
    if isPrefixL needle (c :: rest) then []
    else c :: beforeFirstL needle rest

def beforeFirst (s sep : String) : String :=
  if sep.data = [] then s else String.mk (beforeFirstL sep.data s.data)

/-- Validate the digit part accepted by int(str): digits with single
underscores allowed between two digits (Python 3.6 digit grouping); returns
the digit characters with underscores removed, or none when invalid. -/
def pyDigitRun : List Char → Option (List Char)
  | [] => none
  | [c] => if c.isDigit then some [c] else none
  | c :: '_' :: d :: rest =>
    if c.isDigit && d.isDigit then (pyDigitRun (d :: rest)).map (c :: ·) else none
  | c :: d :: rest =>
    if c.isDigit then (pyDigitRun (d :: rest)).map (c :: ·) else none

def natOfDigits (l : List Char) : Nat :=
  l.foldl (fun n c => n * 10 + (c.toNat - '0'.toNat)) 0

/-- Model of int(str) for an ASCII argument: optional surrounding whitespace,
an optional sign, then a digit run; none on the strings where int() raises
ValueError. -/
def pyInt (s : String) : Option Int :=
  match pyStripChars s.data with
  | '+' :: rest => (pyDigitRun rest).map (fun l => (natOfDigits l : Int))
  | '-' :: rest => (pyDigitRun rest).map (fun l => -(natOfDigits l : Int))
  | rest => (pyDigitRun rest).map (fun l => (natOfDigits l : Int))

/-- Hexadecimal digit value, as accepted inside a percent-escape. -/
def hexVal (c : Char) : Option Nat :=
  if '0' ≤ c ∧ c ≤ '9' then some (c.toNat - '0'.toNat)
  else if 'a' ≤ c ∧ c ≤ 'f' then some (c.toNat - 'a'.toNat + 10)
  else if 'A' ≤ c ∧ c ≤ 'F' then some (c.toNat - 'A'.toNat + 10)
  else none

/-- Model of urllib.parse.unquote: a percent-escape followed by two hex
digits decodes to the corresponding byte; other characters pass through, and
an invalid escape is left verbatim.  A decoded byte below 0x80 is the ASCII
character; bytes of multi-byte UTF-8 sequences (never produced by the links
the claims exercise, which contain no percent-escape at all) are decoded
byte-wise to the replacement character, approximating Python's
errors="replace" handling. -/
def pyUnquoteChars : List Char → List Char
  | '%' :: a :: b :: rest =>
    match hexVal a, hexVal b with
    | some x, some y =>
      let n := 16 * x + y
      (if n < 128 then Char.ofNat n else Char.ofNat 0xFFFD) :: pyUnquoteChars rest
    | _, _ => '%' :: pyUnquoteChars (a :: b :: rest)
  | c :: rest => c :: pyUnquoteChars rest
  | [] => []

def pyUnquote (s : String) : String :=
  String.mk (pyUnquoteChars s.data)

/-- Shortest capture for the lazy part of a pattern of the shape
PRE(.*?)POST: the characters before the first occurrence of post in the
remaining input, failing on a newline (the dot does not match newlines) or
when post never occurs. -/
def lazyCapture (post : List Char) : List Char → Option (List Char)
  | [] => if isPrefixL post [] then some [] else none
  | c :: rs =>
    if isPrefixL post (c :: rs) then some []
    else if c = '\n' then none
    else (lazyCapture post rs).map (c :: ·)

/-- Model of re.search for the patterns of the source, all of the shape
literal-prefix, lazy dot-star named capture, literal-suffix (for example
/url\?q=(?P<url>.*?)&sa=U&ei=): the overall match starts at the leftmost
position where the whole pattern can match, and the capture is the shortest
one at that position.  Returns the captured group. -/
def reSearchL (pre post : List Char) : List Char → Option (List Char)
  | [] => if isPrefixL pre [] then lazyCapture post [] else none
  | c :: rest =>
    match (if isPrefixL pre (c :: rest) then lazyCapture post ((c :: rest).drop pre.length) else none) with
    | some cap => some cap
    | none => reSearchL pre post rest

def reSearchCapture (pre post s : String) : Option String :=
  (reSearchL pre.data post.data s.data).map String.mk

/-- Scheme characters accepted by urllib.parse.urlparse. -/
def isSchemeChar (c : Char) : Bool :=
  c.isAlpha || c.isDigit || c = '+' || c = '-' || c = '.'

/-- What remains of the url after urlparse splits a leading scheme: when the
characters before the first colon are a non-empty run of scheme characters,
they and the colon are dropped; otherwise the url is unchanged. -/
def dropScheme (l : List Char) : List Char :=
  let pre := l.takeWhile (fun c => c ≠ ':')
  if pre.length < l.length ∧ pre ≠ [] ∧ pre.all isSchemeChar then
    l.drop (pre.length + 1)
  else l

/-- Model of urlparse(url).netloc: present exactly when, after the optional
scheme, the url continues with two slashes; the netloc then extends to the
next /, ? or #. -/
def netlocOf (s : String) : String :=
  match dropScheme s.data with
  | '/' :: '/' :: rest =>
    String.mk (rest.takeWhile (fun c => c ≠ '/' ∧ c ≠ '?' ∧ c ≠ '#'))
  | _ => ""

/-! ## Python exceptions raised (or swallowed) by the parsing core -/

inductive PyErr where
  /-- AttributeError: attribute access on None or on a non-dict value
  (None.xpath in advanced_css, or .items() on a non-mapping). -/
  | attributeError
  /-- InvalidSearchTypeException raised by Parser._parse. -/
  | invalidSearchType
  /-- AssertionError of the search-type assertion in Parser.__init__. -/
  | assertionError
  /-- KeyError on the clean_regexes lookup in GoogleParser.after_parsing. -/
  | keyError
  /-- NoParserForSearchEngineException of get_parser_by_search_engine. -/
  | noParserForSearchEngine
deriving DecidableEq, Repr

/-! ## Abstract DOM

lxml and cssselect are external libraries: a parsed document is abstracted
as a table of answers to the compiled selector queries the source performs.
queryText sel answers element.xpath(css_to_xpath(sel))[0].text_content()
(none when the match list is empty, which the source turns into None via the
caught IndexError); queryAttr sel a answers
element.xpath(css_to_xpath(sel))[0].get(a) the same way. -/

structure DomNode where
  queryText : String → Option String
  queryAttr : String → String → Option String

/-- A parsed document: the root element (self.dom as used by first_match)
plus the node lists self.dom.xpath(css_to_xpath(css)) returns for the
container queries of the extraction loop. -/
structure PyDoc where
  root : DomNode
  queryNodes : String → List DomNode

/-- The ::attr(NAME) recognition of Parser.advanced_css: the regular
expression ::attr\((?P<attr>.*)\)$ matched with re.search, whose leftmost
match starts at the first occurrence of "::attr(" from which the pattern can
complete: the string must end with ")" and the greedy capture (which cannot
cross a newline) is everything up to that final ")". -/
def attrOfSelector (l : List Char) : Option (List Char) :=
  match l with
  | [] => none
  | _ :: rest =>
    if isPrefixL "::attr(".data l then
      let tail := l.drop 7
      -- the capture is tail minus the final ")", and may not contain a newline
      if tail ≠ [] ∧ tail.getLast? = some ')' ∧ (tail.dropLast.all (· ≠ '\n')) then
        some tail.dropLast
      else attrOfSelector rest
    else attrOfSelector rest

/-- Model of Parser.advanced_css on a non-None element: dispatch on the
selector form (trailing ::text, trailing ::attr(NAME), plain), query the
element, and swallow the IndexError of an empty match list into None. -/
def advancedCssN (selector : String) (el : DomNode) : Option String :=
  if strEndsWith selector "::text" then
    el.queryText (beforeFirst selector "::")
  else
    match attrOfSelector selector.data with
    | some attr => el.queryAttr (beforeFirst selector "::") (String.mk attr)
    | none => el.queryText selector

/-- Model of Parser.advanced_css including the element argument:
every branch evaluates element.xpath, so a None element raises
AttributeError before anything else. -/
def advancedCss (selector : String) (el : Option DomNode) : Except PyErr (Option String) :=
  match el with
  | none => .error .attributeError
  | some e => .ok (advancedCssN selector e)

/-- Model of Parser.first_match: try each selector in order, skip falsy
selector strings, return the first truthy extracted value; none models the
False returned when no selector matches.  Only IndexError is caught inside,
so the AttributeError of a None element propagates. -/
def firstMatch (selectors : List String) (el : Option DomNode) : Except PyErr (Option String) :=
  match selectors with
  | [] => .ok none
  | sel :: rest =>
    if sel.isEmpty then firstMatch rest el
    else
      match advancedCss sel el with
      | .error e => .error e
      | .ok v => if isTruthy v then .ok v else firstMatch rest el

/-! ## Result records and selector schemas

A serp_result dict is embedded as a structure over the field names the
selector schemas of the embedded engines declare.  A field whose selector is
absent from the schema and a field extracted as None both behave identically
in every access the source performs on them (truthiness tests,
visible_link is None tests, equality), so both are modelled as none.
Whole-record equality (used by list.index during the replace operation)
coincides with Python dict equality on these records because accepted
records of one result type never share a link value. -/

structure SerpResult where
  link : Option String := none
  title : Option String := none
  snippet : Option String := none
  visible_link : Option String := none
  content : Option String := none
  price : Option String := none
  store : Option String := none
  rank : Option Nat := none
deriving DecidableEq, Repr

instance : Inhabited SerpResult := ⟨{}⟩

/-- One layout-variant entry of a *_search_selectors table: the reserved
container / result_container selectors plus the per-field selectors the
variant declares (none = key absent from the dict). -/
structure VariantSelectors where
  container : String
  result_container : Option String := none
  link : Option String := none
  title : Option String := none
  snippet : Option String := none
  visible_link : Option String := none
  content : Option String := none
  price : Option String := none
  store : Option String := none
deriving DecidableEq, Repr

/-- The container query of the extraction loop: when the variant has a
truthy result_container the two selectors are concatenated with a space,
else the container alone is used. -/
def cssOf (vs : VariantSelectors) : String :=
  match vs.result_container with
  | some rc => if rc.isEmpty then vs.container else vs.container ++ " " ++ rc
  | none => vs.container

def extractField (node : DomNode) : Option String → Option String
  | none => none
  | some sel => advancedCssN sel node

/-- Extraction of one draft record from one candidate node: every declared
non-reserved field is extracted with advanced_css; rank is not yet set. -/
def extractDraft (vs : VariantSelectors) (node : DomNode) : SerpResult :=
  { link := extractField node vs.link
    title := extractField node vs.title
    snippet := extractField node vs.snippet
    visible_link := extractField node vs.visible_link
    content := extractField node vs.content
    price := extractField node vs.price
    store := extractField node vs.store
    rank := none }

/-! ## The dedup/rank loop of Parser._parse -/

/-- State threaded through the candidate loop for one layout variant of one
result type: the accepted records of that result type so far (the live
self.search_results[result_type] list), the per-variant current_rank
counter, and the parser-wide num_results counter. -/
structure TypeState where
  accepted : List SerpResult
  current_rank : Nat
  num_results : Nat
deriving Repr

/-- Accepted records sharing the draft's link whose visible_link is None
(the vlinks list comprehension of the replace branch). -/
def vlinksOf (acc : List SerpResult) (d : SerpResult) : List SerpResult :=
  acc.filter (fun e => e.link == d.link && e.visible_link == none)

/-- One iteration of the dedup/rank decision of Parser._parse:
append a draft with a truthy link no accepted record shares (assigning
rank = current_rank, advancing current_rank and num_results); otherwise,
for a truthy link and truthy visible_link, replace in place (via
list.index on the first vlinks element) the accepted record sharing the
link with a None visible_link, copying its rank; otherwise discard. -/
def dedupStep (st : TypeState) (d : SerpResult) : TypeState :=
  if isTruthy d.link && (st.accepted.filter (fun e => e.link == d.link)).isEmpty then
    { accepted := st.accepted ++ [{ d with rank := some st.current_rank }]
      current_rank := st.current_rank + 1
      num_results := st.num_results + 1 }
  else if isTruthy d.link && isTruthy d.visible_link then
    match vlinksOf st.accepted d with
    | [] => st
    | vl :: _ =>
      let d' := { d with rank := vl.rank }
      let idx := st.accepted.findIdx (fun e => e == vl)
      { st with accepted := st.accepted.set idx d' }
  else st

def foldDedup (st : TypeState) : List SerpResult → TypeState
  | [] => st
  | d :: ds => foldDedup (dedupStep st d) ds

/-- The candidate loop for one layout variant: current_rank restarts at 1,
the accepted list and num_results continue from where the previous variant
left them. -/
def runVariantDrafts (accepted : List SerpResult) (num : Nat)
    (drafts : List SerpResult) : List SerpResult × Nat :=
  let st := foldDedup { accepted := accepted, current_rank := 1, num_results := num } drafts
  (st.accepted, st.num_results)

/-- One layout variant at the document level: resolve the container query
to candidate nodes (self.dom.xpath on a None dom raises AttributeError),
extract a draft per node, and run the candidate loop. -/
def runVariantE (dom : Option PyDoc) (accepted : List SerpResult) (num : Nat)
    (vs : VariantSelectors) : Except PyErr (List SerpResult × Nat) :=
  match dom with
  | none => .error .attributeError
  | some d =>
    let drafts := (d.queryNodes (cssOf vs)).map (extractDraft vs)
    .ok (runVariantDrafts accepted num drafts)

/-- All layout variants of one result type, in dict order, accumulating
into the same accepted list. -/
def runTypeVariantsE (dom : Option PyDoc) (accepted : List SerpResult) (num : Nat) :
    List (String × VariantSelectors) → Except PyErr (List SerpResult × Nat)
  | [] => .ok (accepted, num)
  | (_, vs) :: rest =>
    match runVariantE dom accepted num vs with
    | .error e => .error e
    | .ok (acc', num') => runTypeVariantsE dom acc' num' rest

/-- One result type: self.search_results[result_type] = [] then the variant
loop. -/
def runTypeE (dom : Option PyDoc) (num : Nat)
    (variants : List (String × VariantSelectors)) : Except PyErr (List SerpResult × Nat) :=
  runTypeVariantsE dom [] num variants

/-- The full result-type loop of Parser._parse over a selector schema,
producing the per-type accepted lists in schema order and the final
num_results. -/
def runSearchE (dom : Option PyDoc) (num : Nat) :
    List (String × List (String × VariantSelectors)) →
    Except PyErr (List (String × List SerpResult) × Nat)
  | [] => .ok ([], num)
  | (rt, variants) :: rest =>
    match runTypeE dom num variants with
    | .error e => .error e
    | .ok (l, num') =>
      match runSearchE dom num' rest with
      | .error e => .error e
      | .ok (tail, num'') => .ok ((rt, l) :: tail, num'')

/-- Python dict assignment d[k] = v on an insertion-ordered dict: update the
existing entry in place, else append. -/
def assocSet (l : List (String × List SerpResult)) (k : String) (v : List SerpResult) :
    List (String × List SerpResult) :=
  match l with
  | [] => [(k, v)]
  | (k', v') :: rest =>
    if k' == k then (k', v) :: rest else (k', v') :: assocSet rest k v

/-! ## Parser state and Parser._parse -/

/-- The value getattr(self, searchtype + "_search_selectors", None) can
take: the attribute is missing (None), it is a dict (the selector schema),
or it is some non-dict value with the given truthiness. -/
inductive SelAttr where
  | missing
  | dict (schema : List (String × List (String × VariantSelectors)))
  | nonDict (truthy : Bool)
deriving DecidableEq

/-- The class-level configuration of one concrete Parser subclass: the
selector lists for the page-level scalars, the supported search types, and
the *_search_selectors attribute table. -/
structure ParserCfg where
  search_types : List String
  no_results_selector : List String
  effective_query_selector : List String
  num_results_search_selectors : List String
  page_number_selectors : List String
  selectorsFor : String → SelAttr

/-- The mutable instance state of a Parser, as set up by Parser.__init__
and mutated by _parse and after_parsing.  no_results_text is only created
by _parse in the source; before that the attribute does not exist, which is
modelled by the initial none. -/
structure ParserState where
  searchtype : String
  query : String
  html : String
  dom : Option PyDoc
  search_results : List (String × List SerpResult)
  num_results_for_query : Option String
  num_results : Nat
  effective_query : Option String
  page_number : Int
  no_results : Bool
  no_results_text : Option String
  search_engine : String

instance : Inhabited ParserState :=
  ⟨{ searchtype := "", query := "", html := "", dom := none, search_results := []
     num_results_for_query := some "", num_results := 0, effective_query := some ""
     page_number := -1, no_results := false, no_results_text := none, search_engine := "" }⟩

/-- Model of Parser.__init__ (without the automatic parse of a truthy html
argument, which the run functions below compose explicitly): the search
type comes from the configuration and is asserted to be supported, every
scalar gets its default, and the instance attribute search_engine is
assigned the empty string, shadowing any class-level value. -/
def parserInit (cfg : ParserCfg) (query html configSearchType : String) :
    Except PyErr ParserState :=
  if cfg.search_types.contains configSearchType then
    .ok { searchtype := configSearchType, query := query, html := html, dom := none
          search_results := [], num_results_for_query := some "", num_results := 0
          effective_query := some "", page_number := -1, no_results := false
          no_results_text := none, search_engine := "" }
  else .error .assertionError

/-- The int(first_match(...)) / except ValueError step for page_number:
int(False) is 0 when no selector matched; a matched string parses with
int(), with ValueError giving -1. -/
def pageNumberOfMatch : Option String → Int
  | none => 0
  | some s =>
    match pyInt s with
    | some k => k
    | none => -1

/-- The page-level scalars of ParseOutcome. -/
structure PageScalars where
  num_results_for_query : Option String
  page_number : Int
  effective_query : Option String
  no_results_text : Option String

/-- The page-level phase of Parser._parse, in source order: one first_match
per scalar against self.dom (AttributeError propagates when dom is None and
a truthy selector is tried). -/
def pageLevel (cfg : ParserCfg) (dom : Option PyDoc) : Except PyErr PageScalars :=
  match firstMatch cfg.num_results_search_selectors (dom.map PyDoc.root) with
  | .error e => .error e
  | .ok nrq =>
    match firstMatch cfg.page_number_selectors (dom.map PyDoc.root) with
    | .error e => .error e
    | .ok pm =>
      match firstMatch cfg.effective_query_selector (dom.map PyDoc.root) with
      | .error e => .error e
      | .ok eq =>
        match firstMatch cfg.no_results_selector (dom.map PyDoc.root) with
        | .error e => .error e
        | .ok nrt =>
          .ok { num_results_for_query := nrq, page_number := pageNumberOfMatch pm
                effective_query := eq, no_results_text := nrt }

/-- Model of Parser._parse: _parse_lxml is the external lxml call whose
result (None on a swallowed parse failure) arrives as dom; then the
page-level scalars, then the schema gate
(if not selector_dict and not isinstance(selector_dict, dict): raise),
then the extraction loop.  A truthy non-dict passes the gate and raises
AttributeError at selector_dict.items(). -/
def parserParse (cfg : ParserCfg) (dom : Option PyDoc) (st : ParserState) :
    Except PyErr ParserState :=
  match pageLevel cfg dom with
  | .error e => .error e
  | .ok ps =>
    match cfg.selectorsFor st.searchtype with
    | SelAttr.missing => .error .invalidSearchType
    | SelAttr.nonDict false => .error .invalidSearchType
    | SelAttr.nonDict true => .error .attributeError
    | SelAttr.dict schema =>
      match runSearchE dom st.num_results schema with
      | .error e => .error e
      | .ok (newres, num') =>
        .ok { st with
              dom := dom
              num_results_for_query := ps.num_results_for_query
              page_number := ps.page_number
              effective_query := ps.effective_query
              no_results_text := ps.no_results_text
              search_results := newres.foldl (fun acc kv => assocSet acc kv.1 kv.2) st.search_results
              num_results := num' }

/-! ## iter_serp_items and the after_parsing loops

iter_serp_items is a generator that walks the live search_results lists via
enumerate, yielding the indices of records with a truthy link; the consumer
loops of the after_parsing normalizers run their body between two yields, so
a deletion at index i makes the generator resume at index i+1 of the
already-shrunk list.  The loop below reproduces exactly that interleaving;
each body either deletes the visited record (none) or stores a replacement
in place (some).  The fuel argument is the initial list length, which
bounds the number of iterations because the index grows by one per
iteration and the list never grows. -/

def iterSerpLoop (body : SerpResult → Option SerpResult) :
    Nat → List SerpResult → Nat → List SerpResult
  | 0, l, _ => l
  | fuel + 1, l, i =>
    if h : i < l.length then
      let item := l.get ⟨i, h⟩
      if isTruthy item.link then
        match body item with
        | none => iterSerpLoop body fuel (l.eraseIdx i) (i + 1)
        | some r' => iterSerpLoop body fuel (l.set i r') (i + 1)
      else iterSerpLoop body fuel l (i + 1)
    else l

def runSerpLoop (body : SerpResult → Option SerpResult) (l : List SerpResult) :
    List SerpResult :=
  iterSerpLoop body l.length l 0

/-- Applying one of the loops to every result-type list of search_results
(the generator visits the dict entries in insertion order and the bodies
touch only the entry being visited, so the per-key runs are independent). -/
def mapSerpLoop (body : SerpResult → Option SerpResult)
    (results : List (String × List SerpResult)) : List (String × List SerpResult) :=
  results.map (fun kv => (kv.1, runSerpLoop body kv.2))

/-! ## GoogleParser.after_parsing -/

/-- The clean_regexes table of GoogleParser.after_parsing, as
(literal prefix, literal suffix) of the lazy-capture pattern; none models
the KeyError of an unknown search type. -/
def googleCleanRegexFor (searchtype : String) : Option (String × String) :=
  if searchtype == "normal" then some ("/url?q=", "&sa=U&ei=")
  else if searchtype == "image" then some ("imgres?imgurl=", "&")
  else none

/-- The per-record body of the url-cleaning loop of
GoogleParser.after_parsing: unwrap the redirect pattern (percent-decoding
the capture), then, when the resulting link is falsy or has no recognizable
host even after prefixing http, fall back to the first whitespace token of
a truthy visible_link, prefixed with http://, as both visible_link and
link. -/
def googleCleanRecord (pre post : String) (r : SerpResult) : SerpResult :=
  let l0 := r.link.getD ""
  let l1 :=
    match reSearchCapture pre post l0 with
    | some u => pyUnquote u
    | none => l0
  let useVisible :=
    if l1 ≠ "" then
      let actual := if strStartsWith l1 "http" then l1 else "http://" ++ l1
      netlocOf actual == ""
    else true
  if useVisible && isTruthy r.visible_link then
    let v := pyStrip (r.visible_link.getD "")
    let v1 :=
      match pySplitWs v with
      | t :: _ => t
      | [] => v
    let newV := "http://" ++ v1
    { r with visible_link := some newV, link := some newV }
  else { r with link := some l1 }

/-- self.query.replace(Char.ofNat 34 as a string, empty string). -/
def stripDQuotes (q : String) : String :=
  String.mk (q.data.filter (fun c => c ≠ '"'))

/-- The snippet fallback of the no-results block: some record with a truthy
link has a snippet containing the de-quoted query (and the query is
truthy).  A record whose snippet key exists with value None would make the
source raise TypeError at the in-operator; that situation (not exercised by
any claim below, whose runs keep no_results False or snippets absent) is
modelled as no retraction. -/
def snippetRetracts (query : String) (results : List (String × List SerpResult)) : Bool :=
  results.any (fun kv => kv.2.any (fun r =>
    isTruthy r.link && !query.isEmpty &&
      (match r.snippet with
       | some s => strContains s (stripDQuotes query)
       | none => false)))

/-- The no_results value GoogleParser.after_parsing computes for a normal
search: zero accepted records means no results, a marker phrase in the raw
html forces no results, and a snippet still containing the query retracts
the determination. -/
def googleNoResults (st : ParserState) : Bool :=
  let nr0 := if st.num_results > 0 then false else true
  let nr1 :=
    if strContains st.html "No results found for" ||
       strContains st.html "did not match any documents" then true else nr0
  if nr1 then !(snippetRetracts st.query st.search_results) else nr1

/-- Model of GoogleParser.after_parsing: the no-results heuristics for the
normal search type, then the url-cleaning loop over iter_serp_items with
the searchtype's clean regex. -/
def googleAfterParsing (st : ParserState) : Except PyErr ParserState :=
  let st1 :=
    if st.searchtype == "normal" then { st with no_results := googleNoResults st } else st
  match googleCleanRegexFor st1.searchtype with
  | none => .error .keyError
  | some pp =>
    .ok { st1 with
          search_results := mapSerpLoop (fun r => some (googleCleanRecord pp.1 pp.2 r)) st1.search_results }

/-! ## BaiduParser.after_parsing and YahooParser.after_parsing -/

/-- The class attribute BaiduParser.search_engine of the source (shadowed on
every instance by the empty string Parser.__init__ assigns). -/
def BaiduParser.search_engine : String := "baidu"

/-- Body of the first loop of BaiduParser.after_parsing: delete a record
whose title, snippet and visible_link are all falsy; otherwise, for a
truthy visible_link, rewrite visible_link and link to http:// plus its
first whitespace token. -/
def baiduCleanBody (r : SerpResult) : Option SerpResult :=
  if !(isTruthy r.title || isTruthy r.snippet || isTruthy r.visible_link) then none
  else if isTruthy r.visible_link then
    let v := pyStrip (r.visible_link.getD "")
    let v1 :=
      match pySplitWs v with
      | t :: _ => t
      | [] => v
    let newV := "http://" ++ v1
    some { r with visible_link := some newV, link := some newV }
  else some r

/-- Body of the visible_link-is-None prune loop shared by the dead branch
of BaiduParser.after_parsing and the normal branch of
YahooParser.after_parsing. -/
def pruneNoVisibleBody (r : SerpResult) : Option SerpResult :=
  if r.visible_link == none then none else some r

/-- Model of BaiduParser.after_parsing: the clean/prune loop always runs;
the second block is guarded by self.search_engine == "normal" and
queries self.dom when taken. -/
def baiduAfterParsing (st : ParserState) : Except PyErr ParserState :=
  let st1 := { st with search_results := mapSerpLoop baiduCleanBody st.search_results }
  if st1.search_engine == "normal" then
    match st1.dom with
    | none => .error .attributeError
    | some d =>
      let st2 :=
        if (d.queryNodes ".hit_top_new").length ≥ 1 then { st1 with no_results := true } else st1
      .ok { st2 with search_results := mapSerpLoop pruneNoVisibleBody st2.search_results }
  else .ok st1

/-- Body of the image-search loop of YahooParser.after_parsing: the single
regex &imgurl=(?P<url>.*?)& replaces the link with http:// plus the
unquoted capture. -/
def yahooImageBody (r : SerpResult) : Option SerpResult :=
  match reSearchCapture "&imgurl=" "&" (r.link.getD "") with
  | some u => some { r with link := some ("http://" ++ pyUnquote u) }
  | none => some r

/-- Model of YahooParser.after_parsing: for a normal search, recompute
no_results from num_results and the #cquery marker (querying self.dom),
then prune records whose visible_link is None over iter_serp_items; for an
image search, unwrap the &imgurl= parameter. -/
def yahooAfterParsing (st : ParserState) : Except PyErr ParserState :=
  if st.searchtype == "normal" then
    let nr := decide (st.num_results = 0)
    match st.dom with
    | none => .error .attributeError
    | some d =>
      let nr2 := if (d.queryNodes "#cquery").length ≥ 1 then true else nr
      .ok { st with no_results := nr2,
                    search_results := mapSerpLoop pruneNoVisibleBody st.search_results }
  else if st.searchtype == "image" then
    .ok { st with search_results := mapSerpLoop yahooImageBody st.search_results }
  else .ok st

/-! ## The engine-name registry -/

inductive EngineTag where
  | google | baidu | yandex | bing | yahoo | duckduckgo | ask | blekko
  | youtube | youtube_sponsored
deriving DecidableEq, Repr

/-- Model of is_this_search_engine: case-insensitive membership of the name
in the alias list. -/
def isThisSearchEngine (s : String) (matching : List String) : Bool :=
  (matching.map pyLower).contains (pyLower s)

/-- Model of get_parser_by_search_engine: the if/elif chain of the source.
Every branch goes through is_this_search_engine except the Baidu branch,
which compares exactly. -/
def getParserBySearchEngine (s : String) : Except PyErr EngineTag :=
  if isThisSearchEngine s ["google", "googleimg"] then .ok .google
  else if s == "baidu" || s == "baiduimg" then .ok .baidu
  else if isThisSearchEngine s ["yandex"] then .ok .yandex
  else if isThisSearchEngine s ["bing"] then .ok .bing
  else if isThisSearchEngine s ["yahoo"] then .ok .yahoo
  else if isThisSearchEngine s ["duckduckgo"] then .ok .duckduckgo
  else if isThisSearchEngine s ["ask"] then .ok .ask
  else if isThisSearchEngine s ["blekko"] then .ok .blekko
  else if isThisSearchEngine s ["youtube"] then .ok .youtube
  else if isThisSearchEngine s ["youtube_sponsored"] then .ok .youtube_sponsored
  else .error .noParserForSearchEngine

/-! ## GoogleParser configuration (normal_search_selectors and the
page-level selector lists, transcribed from the source) -/

def googleNormalSchema : List (String × List (String × VariantSelectors)) :=
  [ ("organic",
      [ ("0", { container := "#center_col", result_container := some "div.g "
                link := some "h3.r > a:first-child::attr(href)"
                snippet := some "div.s span.st::text"
                title := some "h3.r > a:first-child::text"
                visible_link := some "cite::text" }) ])
  , ("ads_top",
      [ ("0", { container := "#_Ltg", result_container := some ".ads-ad"
                title := some "h3 > a::text", link := some "h3 > a::attr(href)"
                visible_link := some ".ads-visurl > cite"
                content := some ".ads-creative" })
      , ("1", { container := "#tads", result_container := some ".ads-ad"
                title := some "._uWj > h3"
                link := some "a[id$=\"s0p\"]::attr(href)"
                visible_link := some ".ads-visurl > cite"
                content := some ".ads-creative" }) ])
  , ("ads_bottom",
      [ ("0", { container := "#_Ktg", result_container := some ".ads-ad"
                title := some "h3 > a::text", link := some "h3 > a::attr(href)"
                visible_link := some ".ads-visurl > cite"
                content := some ".ads-creative" })
      , ("1", { container := "#tadsb", result_container := some ".ads-ad"
                title := some "._uWj > h3"
                link := some "a[id$=\"s3p\"]::attr(href)"
                visible_link := some ".ads-visurl > cite"
                content := some ".ads-creative" }) ])
  , ("pla_main",
      [ ("0", { container := "#center_col > table.ts"
                result_container := some "td[valign=\"top\"]"
                title := some "div:nth-child(2) > a::text"
                link := some "div:nth-child(2) > a::attr(href)"
                price := some "div:nth-child(3)"
                store := some "div:nth-child(4) > cite" })
      , ("1", { container := ".shopping-carousel-container"
                result_container := some ".pla-unit-container"
                title := some "h4._HLg", link := some "a.pla-unit::attr(href)"
                price := some "._XJg", store := some "._FLg" }) ])
  , ("pla_side",
      [ ("0", { container := "#rhs_block > table.ts"
                result_container := some "td[valign=\"top\"]"
                title := some "._cf > div:nth-child(2) > a::text"
                link := some "._cf > div:nth-child(2) > a::attr(href)"
                price := some "._cf > div:nth-child(3)"
                store := some "._cf > div:nth-child(4) > cite" }) ]) ]

/-- GoogleParser class configuration.  search_types lists image, but the
class declares no image_search_selectors attribute, so getattr returns
None for it. -/
def googleCfg : ParserCfg :=
  { search_types := ["normal", "image"]
    no_results_selector := []
    effective_query_selector := ["#topstuff .med > b::text"]
    num_results_search_selectors := ["#resultStats"]
    page_number_selectors := ["#navcnt td.cur::text"]
    selectorsFor := fun ty =>
      if ty == "normal" then SelAttr.dict googleNormalSchema else SelAttr.missing }

/-- A Google parse end to end: construction (Parser.__init__), _parse with
the document the external lxml call produced from html (none when lxml
raised and the error was swallowed), then GoogleParser.after_parsing. -/
def googleFullRun (dom : Option PyDoc) (html query searchtype : String) :
    Except PyErr ParserState :=
  match parserInit googleCfg query html searchtype with
  | .error e => .error e
  | .ok st0 =>
    match parserParse googleCfg dom st0 with
    | .error e => .error e
    | .ok st1 => googleAfterParsing st1

/-! ## BaiduParser configuration (normal_search_selectors and the
page-level selector lists, transcribed from the source) -/

def baiduNormalSchema : List (String × List (String × VariantSelectors)) :=
  [ ("organic",
      [ ("0", { container := "#content_left", result_container := some ".c-container"
                title := some "h3 > a::text", link := some "h3 > a::attr(href)"
                snippet := some ".c-abstract::text"
                visible_link := some ".c-showurl::text" }) ])
  , ("brand_zone",
      [ ("0", { container := "#content_left"
                result_container := some "div[class$=\"-0-0\"]"
                title := some "a[class$=\"-header-title\"]::text"
                link := some "a[class$=\"-header-title\"]::attr(href)"
                snippet := some "div[id$=\"-description\"]::text"
                visible_link := some "div[class$=\"-site\"]::text" })
      , ("1", { container := "#content_left"
                result_container := some "div[class$=\"-h1\"]"
                title := some "h2 > a[class$=\"-header-title\"]::text"
                link := some "h2 > a[class$=\"-header-title\"]::attr(href)"
                snippet := some "div[id$=\"-description\"]"
                visible_link := some "div[class$=\"-site\"]" }) ])
  , ("brand_zone_side",
      [ ("1", { container := "#content_right"
                result_container := some "td[align=\"left\"] > div > div > div"
                title := some "div[class$=\"-title\"] > h2[id$=\"-h2\"] > a::text"
                link := some "div[class$=\"-title\"] > h2[id$=\"-h2\"] > a::attr(href)"
                snippet := some "div[class$=\"-htmltext\"] > p[class$=\"-htmltext-desc\"] > a::text"
                visible_link := some "div[class$=\"-show-url\"] > div[class$=\"-site\"] > a::text" })
      , ("2", { container := "#content_right"
                result_container := some "td > div > div"
                title := some "FAKETAG"
                link := some "div[class$=\"-atom-htmltext\"] > p[class$=\"-htmltext-desc\"] > a::attr(href)"
                snippet := some "div[class$=\"-atom-htmltext\"] > p[class$=\"-htmltext-desc\"] > a::text"
                visible_link := some "FAKETAG" })
      , ("3", { container := "#content_right"
                result_container := some "td[align=\"left\"] > div > div > div"
                title := some "div[class$=\"-atom-htmltext\"] > p[class$=\"-htmltext-desc\"] > a::text"
                link := some "div[class$=\"-atom-htmltext\"] > p[class$=\"-htmltext-desc\"] > a::attr(href)"
                snippet := some "div[class$=\"-htmltext\"] > p[class$=\"-htmltext-desc\"] > a::text"
                visible_link := some "div[class$=\"-show-url\"] > div[class$=\"-site\"] > a::text" })
      , ("4", { container := "#content_right"
                result_container := some "td > div > div"
                title := some "FAKETAG"
                link := some "div[class$=\"-atom-htmltext\"] > p[class$=\"-htmltext-desc\"] > a::attr(href)"
                snippet := some "div[class$=\"-atom-htmltext\"] > p[class$=\"-htmltext-desc\"] > a::text"
                visible_link := some "div[class$=\"-show-url\"] > div[class$=\"-site\"] > a::text" }) ])
  , ("promo_ads_side",
      [ ("0", { container := ".ad-widget", result_container := some ".ec-figcaption"
                link := some "h2 > a::attr(href)"
                snippet := some ".ec-description-link"
                title := some "h2 > a::text"
                visible_link := some ".ec-footer::text" }) ])
  , ("ads_side",
      [ ("1", { container := "#ec_im_container"
                result_container := some "div[id^=\"bdfs\"]"
                title := some "a[id^=\"dfs\"]::text"
                link := some "a[id^=\"dfs\"]::attr(href)"
                snippet := some "a[id^=\"bdfs\"] > font:nth-child(2)"
                visible_link := some "a[id^=\"bdfs\"] > font:nth-child(4)" }) ])
  , ("ads_bottom",
      [ ("0", { container := "#content_left", result_container := some "div[id^=\"50\"]"
                link := some "h3 > a::attr(href)", snippet := some "div > a::text"
                title := some "h3 > a::text", visible_link := some "a > span::text" })
      , ("1", { container := "#content_left", result_container := some "div[id^=\"50\"]"
                title := some "div:nth-child(1) > h3 > a::text"
                link := some "div:nth-child(1) > h3 > a::attr(href)"
                snippet := some "div:nth-child(2) > a::text"
                visible_link := some "div:nth-child(3) > a > span" })
      , ("2", { container := "#content_left", result_container := some "div[id^=\"50\"]"
                title := some "div:nth-child(1) > h3 > a::text"
                link := some "div:nth-child(1) > h3 > a::attr(href)"
                snippet := some "div:nth-child(2) tr:nth-child(2) > div > font > a::text"
                visible_link := some "div:nth-child(2) tr:nth-child(2) > div > div > a > span" })
      , ("3", { container := "#content_left", result_container := some "div[id^=\"50\"]"
                title := some "div:nth-child(1) > h3 > a::text"
                link := some "div:nth-child(1) > h3 > a::attr(href)"
                snippet := some "div:nth-child(2) > a::text"
                visible_link := some "div:nth-child(3) > a > span" })
      , ("4", { container := "#content_left", result_container := some "div[id^=\"50\"]"
                title := some "div:nth-child(1) > h3 > a::text"
                link := some "div:nth-child(1) > h3 > a::attr(href)"
                snippet := some "font > a::text"
                visible_link := some "div:nth-child(2) > a > span" }) ])
  , ("ads_top",
      [ ("0", { container := "#content_left", result_container := some "#4001"
                link := some "h3 > a::attr(href)", snippet := some "div > a::text"
                title := some "h3 > a::text", visible_link := some "a > span::text" })
      , ("1", { container := "#content_left", result_container := some "div[id^=\"40\"]"
                title := some "div:nth-child(1) > h3 > a::text"
                link := some "div:nth-child(1) > h3 > a::attr(href)"
                snippet := some "div:nth-child(2) > div:nth-child(1) > div:nth-child(2)"
                visible_link := some "div:nth-child(3) > a > span" })
      , ("2", { container := "#content_left", result_container := some "div[id^=\"40\"]"
                title := some "div:nth-child(1) > h3 > a::text"
                link := some "div:nth-child(1) > h3 > a::attr(href)"
                snippet := some "div:nth-child(2) > a::text"
                visible_link := some "div:nth-child(3) > a > span" })
      , ("3", { container := "#content_left", result_container := some "div[id^=\"40\"]"
                title := some "div:nth-child(1) > h3 > a::text"
                link := some "div:nth-child(1) > h3 > a::attr(href)"
                snippet := some "div:nth-child(2) > table div > font > a::text"
                visible_link := some "div:nth-child(3) > a > span" }) ]) ]

/-- BaiduParser class configuration.  As for Google, search_types lists
image but no image_search_selectors attribute exists. -/
def baiduCfg : ParserCfg :=
  { search_types := ["normal", "image"]
    no_results_selector := []
    effective_query_selector := [""]
    num_results_search_selectors := ["#container .nums"]
    page_number_selectors := [".fk_cur + .pc::text"]
    selectorsFor := fun ty =>
      if ty == "normal" then SelAttr.dict baiduNormalSchema else SelAttr.missing }

/-- A Baidu parse end to end. -/
def baiduFullRun (dom : Option PyDoc) (html query searchtype : String) :
    Except PyErr ParserState :=
  match parserInit baiduCfg query html searchtype with
  | .error e => .error e
  | .ok st0 =>
    match parserParse baiduCfg dom st0 with
    | .error e => .error e
    | .ok st1 => baiduAfterParsing st1

/-! ## Concrete documents and states used for witnesses and counterexamples -/

/-- A document on which every selector query misses. -/
def docEmpty : PyDoc :=
  { root := { queryText := fun _ => none, queryAttr := fun _ _ => none }
    queryNodes := fun _ => [] }

/-- A candidate node carrying only an href on its first anchor: the link
selector of a Google ads_top desktop ad extracts u, every other field
misses. -/
def adNodeDesktop (u : String) : DomNode :=
  { queryText := fun _ => none
    queryAttr := fun sel attr =>
      if sel == "h3 > a" && attr == "href" then some u else none }

/-- The same for the mobile ads_top variant, whose link selector compiles
from a different base. -/
def adNodeMobile (u : String) : DomNode :=
  { queryText := fun _ => none
    queryAttr := fun sel attr =>
      if sel == "a[id$=\"s0p\"]" && attr == "href" then some u else none }

/-- A Google page on which the ads_top container queries of the two layout
variants match one ad each, with distinct links: the desktop container
holds an ad linking to http://a.com, the mobile container one linking to
http://b.com. -/
def docTwoVariantAds : PyDoc :=
  { root := { queryText := fun _ => none, queryAttr := fun _ _ => none }
    queryNodes := fun css =>
      if css == "#_Ltg .ads-ad" then [adNodeDesktop "http://a.com"]
      else if css == "#tads .ads-ad" then [adNodeMobile "http://b.com"]
      else [] }

/-- An organic Google result whose anchor href is a /url redirect with an
empty q parameter and which exposes no visible link. -/
def organicNodeEmptyQ : DomNode :=
  { queryText := fun _ => none
    queryAttr := fun sel attr =>
      if sel == "h3.r > a:first-child" && attr == "href" then some "/url?q=&sa=U&ei=X" else none }

/-- A Google page with that single organic result. -/
def docEmptyQ : PyDoc :=
  { root := { queryText := fun _ => none, queryAttr := fun _ _ => none }
    queryNodes := fun css =>
      if css == "#center_col div.g " then [organicNodeEmptyQ] else [] }

/-- A Baidu organic result node exposing only an href: title, snippet and
visible link all miss, so the accepted record is degenerate. -/
def baiduBareNode (u : String) : DomNode :=
  { queryText := fun _ => none
    queryAttr := fun sel attr =>
      if sel == "h3 > a" && attr == "href" then some u else none }

/-- A Baidu page whose organic container holds two such degenerate results
with distinct links. -/
def docBaiduTwoBare : PyDoc :=
  { root := { queryText := fun _ => none, queryAttr := fun _ _ => none }
    queryNodes := fun css =>
      if css == "#content_left .c-container" then
        [baiduBareNode "http://a.com", baiduBareNode "http://b.com"]
      else [] }

/-- A document whose page-number query answers 3. -/
def docPageThree : PyDoc :=
  { root := { queryText := fun sel => if sel == "#navcnt td.cur" then some "3" else none
              queryAttr := fun _ _ => none }
    queryNodes := fun _ => [] }

deriving instance DecidableEq for Except

/-! ## Projections used to state closed facts about runs -/

def runOk : Except PyErr ParserState → Bool
  | .ok _ => true
  | .error _ => false

def resultsOfRun : Except PyErr ParserState → List (String × List SerpResult)
  | .ok st => st.search_results
  | .error _ => []

def pageOfRun : Except PyErr ParserState → Int
  | .ok st => st.page_number
  | .error _ => -999

def errOfRun : Except PyErr ParserState → Option PyErr
  | .ok _ => none
  | .error e => some e

def lookupType (res : List (String × List SerpResult)) (k : String) : List SerpResult :=
  match res.find? (fun kv => kv.1 == k) with
  | some kv => kv.2
  | none => []

/-! ## Invariants of the dedup/rank loop -/

/-- One dedup step preserves the invariant that the accepted records carry
ranks 1..length in order and current_rank is length+1. -/
theorem dedupStep_rank_inv (st : TypeState) (d : SerpResult)
    (hr : st.current_rank = st.accepted.length + 1)
    (hranks : ∀ i (h : i < st.accepted.length), (st.accepted.get ⟨i, h⟩).rank = some (i + 1)) :
    (dedupStep st d).current_rank = (dedupStep st d).accepted.length + 1 ∧
    ∀ i (h : i < (dedupStep st d).accepted.length),
      ((dedupStep st d).accepted.get ⟨i, h⟩).rank = some (i + 1) := by
  simp only [List.get_eq_getElem] at hranks ⊢
  unfold dedupStep
  split
  · -- append branch: the new record sits at index length with rank current_rank
    refine ⟨by simpa using hr, ?_⟩
    intro i h
    simp only [List.length_append, List.length_cons, List.length_nil] at h
    rcases Nat.lt_or_ge i st.accepted.length with hi | hi
    · rw [List.getElem_append_left hi]
      exact hranks i hi
    · have hieq : i = st.accepted.length := by omega
      subst hieq
      rw [List.getElem_append_right (Nat.le_refl _)]
      simpa using hr
  · split
    · -- backfill branch with an empty vlinks list: state unchanged
      split
      · exact ⟨hr, hranks⟩
      · next vl rest heq =>
        -- the replaced record keeps its index and its rank
        have hvmem : vl ∈ vlinksOf st.accepted d := by
          rw [heq]; exact List.mem_cons_self _ _
        have hvacc : vl ∈ st.accepted := (List.mem_filter.mp hvmem).1
        have hlt : st.accepted.findIdx (fun e => e == vl) < st.accepted.length :=
          List.findIdx_lt_length_of_exists ⟨vl, hvacc, by simp⟩
        have hget : st.accepted[st.accepted.findIdx (fun e => e == vl)] = vl :=
          eq_of_beq (List.findIdx_getElem (w := hlt))
        refine ⟨by simp [hr], ?_⟩
        intro i h
        simp only [List.length_set] at h
        by_cases hi : st.accepted.findIdx (fun e => e == vl) = i
        · subst hi
          rw [List.getElem_set_self]
          have hrk := hranks _ hlt
          rw [hget] at hrk
          simpa using hrk
        · rw [List.getElem_set_ne hi]
          exact hranks i h
    · exact ⟨hr, hranks⟩

/-- The rank invariant holds after folding the dedup step over any draft
list. -/
theorem foldDedup_rank_inv (ds : List SerpResult) (st : TypeState)
    (hr : st.current_rank = st.accepted.length + 1)
    (hranks : ∀ i (h : i < st.accepted.length), (st.accepted.get ⟨i, h⟩).rank = some (i + 1)) :
    (foldDedup st ds).current_rank = (foldDedup st ds).accepted.length + 1 ∧
    ∀ i (h : i < (foldDedup st ds).accepted.length),
      ((foldDedup st ds).accepted.get ⟨i, h⟩).rank = some (i + 1) := by
  induction ds generalizing st with
  | nil => exact ⟨hr, hranks⟩
  | cons d ds ih =>
    exact ih (dedupStep st d) (dedupStep_rank_inv st d hr hranks).1
      (dedupStep_rank_inv st d hr hranks).2

/-- C1 (amended): when a result type is populated through a single layout
variant, the accepted records carry ranks exactly 1..count in discovery
order, each appended record receiving rank = count(previously accepted) + 1;
the claimed extension to several layout variants fails because the rank
counter restarts at 1 for every variant (see the counterexample). -/
theorem ranks_contiguous_single_variant (dom : Option PyDoc) (name : String)
    (vs : VariantSelectors) (num : Nat) (out : List SerpResult × Nat)
    (hout : runTypeE dom num [(name, vs)] = .ok out) :
    ∀ i (h : i < out.1.length), (out.1.get ⟨i, h⟩).rank = some (i + 1) := by
  cases dom with
  | none => simp [runTypeE, runTypeVariantsE, runVariantE] at hout
  | some doc =>
    obtain ⟨l, n2⟩ := out
    have hout1 : l =
        (foldDedup { accepted := [], current_rank := 1, num_results := num }
          ((doc.queryNodes (cssOf vs)).map (extractDraft vs))).accepted := by
      simp only [runTypeE, runTypeVariantsE, runVariantE, runVariantDrafts] at hout
      cases hout
      rfl
    subst hout1
    exact (foldDedup_rank_inv _ _ rfl (by intro i hi; simp at hi)).2

/-- A bare candidate node for the single-variant witness run: only the
anchor href answers. -/
def nodeW (u : String) : DomNode :=
  { queryText := fun _ => none
    queryAttr := fun sel attr => if sel == "a" && attr == "href" then some u else none }

/-- A single-variant selector table and a document with three candidates,
the third a duplicate of the first. -/
def vsW : VariantSelectors :=
  { container := "#c", link := some "a::attr(href)" }

def docW : PyDoc :=
  { root := { queryText := fun _ => none, queryAttr := fun _ _ => none }
    queryNodes := fun css =>
      if css == "#c" then [nodeW "http://a.com", nodeW "http://b.com", nodeW "http://a.com"]
      else [] }

def outW : List SerpResult × Nat :=
  ([ { link := some "http://a.com", rank := some 1 }
   , { link := some "http://b.com", rank := some 2 } ], 2)

/-- Witness for the single-variant rank theorem: on the concrete docW run
the second accepted record has rank 2. -/
theorem ranks_contiguous_single_variant_w :
    runTypeE (some docW) 0 [("0", vsW)] = .ok outW ∧
      (outW.1.get ⟨1, by decide⟩).rank = some 2 :=
  ⟨by decide, ranks_contiguous_single_variant (some docW) "0" vsW 0 outW (by decide) 1 (by decide)⟩

/-- C1 (counterexample): on the Google page docTwoVariantAds the ads_top
result type collects one accepted record from each of its two layout
variants, and both records carry rank 1: the rank values are not the
contiguous increasing sequence 1..count the claim asserts, because
current_rank restarts at 1 for the second layout variant. -/
theorem ranks_restart_across_variants_cex :
    runOk (googleFullRun (some docTwoVariantAds) "<html>" "q" "normal") = true ∧
    (lookupType (resultsOfRun (googleFullRun (some docTwoVariantAds) "<html>" "q" "normal"))
        "ads_top").map SerpResult.rank = [some 1, some 1] ∧
    (lookupType (resultsOfRun (googleFullRun (some docTwoVariantAds) "<html>" "q" "normal"))
        "ads_top").map SerpResult.rank ≠
      (List.range (lookupType (resultsOfRun (googleFullRun (some docTwoVariantAds) "<html>" "q" "normal"))
        "ads_top").length).map (fun j => some (j + 1)) := by
  refine ⟨by decide, by decide, by decide⟩

/-- C3: when the dedup decision takes the replace branch (the draft has a
truthy link and truthy visible_link and some accepted record shares the
link with a None visible_link), the new record is stored at the replaced
record's index with the replaced record's rank, every other position is
untouched, and neither num_results nor the rank counter changes. -/
theorem replace_preserves_rank_and_position (acc : List SerpResult) (d : SerpResult)
    (r n : Nat)
    (hlink : isTruthy d.link = true)
    (hvis : isTruthy d.visible_link = true)
    (hvl : vlinksOf acc d ≠ []) :
    ∃ idx vl, acc[idx]? = some vl ∧ vl.link = d.link ∧ vl.visible_link = none ∧
      dedupStep { accepted := acc, current_rank := r, num_results := n } d =
        { accepted := acc.set idx { d with rank := vl.rank }, current_rank := r, num_results := n } ∧
      (acc.set idx { d with rank := vl.rank }).length = acc.length ∧
      (acc.set idx { d with rank := vl.rank })[idx]? = some { d with rank := vl.rank } ∧
      ∀ j, j ≠ idx → (acc.set idx { d with rank := vl.rank })[j]? = acc[j]? := by
  rcases heq : vlinksOf acc d with _ | ⟨vl, rest⟩
  · exact absurd heq hvl
  · have hvmem : vl ∈ vlinksOf acc d := by rw [heq]; exact List.mem_cons_self _ _
    have hvacc : vl ∈ acc := (List.mem_filter.mp hvmem).1
    have hpred := (List.mem_filter.mp hvmem).2
    simp only [vlinksOf, Bool.and_eq_true, beq_iff_eq] at hpred
    obtain ⟨hplink, hpvis⟩ := hpred
    have hlt : acc.findIdx (fun e => e == vl) < acc.length :=
      List.findIdx_lt_length_of_exists ⟨vl, hvacc, by simp⟩
    have hget : acc[acc.findIdx (fun e => e == vl)] = vl :=
      eq_of_beq (List.findIdx_getElem (w := hlt))
    refine ⟨acc.findIdx (fun e => e == vl), vl, ?_, hplink, hpvis, ?_, by simp, ?_, ?_⟩
    · rw [List.getElem?_eq_getElem hlt, hget]
    · unfold dedupStep
      have hdup : ((acc.filter (fun e => e.link == d.link)).isEmpty) = false := by
        have : vl ∈ acc.filter (fun e => e.link == d.link) :=
          List.mem_filter.mpr ⟨hvacc, by simp [hplink]⟩
        rcases hfe : acc.filter (fun e => e.link == d.link) with _ | _
        · rw [hfe] at this; simp at this
        · simp [List.isEmpty, hfe]
      rw [if_neg (by simp [hdup]), if_pos (by simp [hlink, hvis]), heq]
    · rw [List.getElem?_set_self hlt]
    · intro j hj
      rw [List.getElem?_set_ne (by omega)]

/-- Witness for the replace theorem: the two-candidate scenario of the
claim.  First candidate link http://a.com with no visible link, second the
same link with visible link a.com: the replace branch fires on the second
candidate, and the full variant run ends with exactly one record of rank 1
and visible link a.com, with num_results 1. -/
theorem replace_preserves_rank_and_position_w :
    (∃ idx vl,
      ([ { link := some "http://a.com", rank := some 1 } ] : List SerpResult)[idx]? = some vl ∧
      vl.link = ({ link := some "http://a.com", visible_link := some "a.com" } : SerpResult).link ∧
      vl.visible_link = none ∧
      dedupStep { accepted := [ { link := some "http://a.com", rank := some 1 } ],
                  current_rank := 2, num_results := 1 }
          { link := some "http://a.com", visible_link := some "a.com" } =
        { accepted := ([ { link := some "http://a.com", rank := some 1 } ] : List SerpResult).set idx
            { ({ link := some "http://a.com", visible_link := some "a.com" } : SerpResult) with rank := vl.rank }
          current_rank := 2, num_results := 1 } ∧
      (([ { link := some "http://a.com", rank := some 1 } ] : List SerpResult).set idx
            { ({ link := some "http://a.com", visible_link := some "a.com" } : SerpResult) with rank := vl.rank }).length = 1 ∧
      (([ { link := some "http://a.com", rank := some 1 } ] : List SerpResult).set idx
            { ({ link := some "http://a.com", visible_link := some "a.com" } : SerpResult) with rank := vl.rank })[idx]? =
        some { ({ link := some "http://a.com", visible_link := some "a.com" } : SerpResult) with rank := vl.rank } ∧
      ∀ j, j ≠ idx →
        (([ { link := some "http://a.com", rank := some 1 } ] : List SerpResult).set idx
            { ({ link := some "http://a.com", visible_link := some "a.com" } : SerpResult) with rank := vl.rank })[j]? =
        ([ { link := some "http://a.com", rank := some 1 } ] : List SerpResult)[j]?) ∧
    runVariantDrafts [] 0
        [ { link := some "http://a.com" }
        , { link := some "http://a.com", visible_link := some "a.com" } ] =
      ([ { link := some "http://a.com", visible_link := some "a.com", rank := some 1 } ], 1) :=
  ⟨replace_preserves_rank_and_position
      [ { link := some "http://a.com", rank := some 1 } ]
      { link := some "http://a.com", visible_link := some "a.com" } 2 1
      (by decide) (by decide) (by decide), by decide⟩

/-! ## The truthy-link invariant of the extraction phase -/

theorem dedupStep_truthy_inv (st : TypeState) (d : SerpResult)
    (hP : ∀ x ∈ st.accepted, isTruthy x.link = true) :
    ∀ x ∈ (dedupStep st d).accepted, isTruthy x.link = true := by
  unfold dedupStep
  split
  · next hcond =>
    intro x hx
    rcases List.mem_append.mp hx with hx | hx
    · exact hP x hx
    · simp only [List.mem_singleton] at hx
      subst hx
      exact (Bool.and_eq_true .. |>.mp hcond).1
  · split
    · next hcond2 =>
      split
      · exact hP
      · intro x hx
        rcases List.mem_or_eq_of_mem_set hx with hx | hx
        · exact hP x hx
        · subst hx
          exact (Bool.and_eq_true .. |>.mp hcond2).1
    · exact hP

theorem foldDedup_truthy_inv (ds : List SerpResult) (st : TypeState)
    (hP : ∀ x ∈ st.accepted, isTruthy x.link = true) :
    ∀ x ∈ (foldDedup st ds).accepted, isTruthy x.link = true := by
  induction ds generalizing st with
  | nil => exact hP
  | cons d ds ih => exact ih (dedupStep st d) (dedupStep_truthy_inv st d hP)

theorem runTypeVariantsE_truthy_inv (variants : List (String × VariantSelectors))
    (dom : Option PyDoc) (acc : List SerpResult) (num : Nat)
    (out : List SerpResult × Nat)
    (hP : ∀ x ∈ acc, isTruthy x.link = true)
    (hout : runTypeVariantsE dom acc num variants = .ok out) :
    ∀ x ∈ out.1, isTruthy x.link = true := by
  induction variants generalizing acc num with
  | nil =>
    unfold runTypeVariantsE at hout
    cases hout
    exact hP
  | cons v rest ih =>
    unfold runTypeVariantsE at hout
    cases dom with
    | none => simp [runVariantE] at hout
    | some doc =>
      simp only [runVariantE, runVariantDrafts] at hout
      exact ih _ _ (foldDedup_truthy_inv _ _ (by simpa using hP)) hout

theorem runSearchE_truthy_inv (schema : List (String × List (String × VariantSelectors)))
    (dom : Option PyDoc) (num : Nat)
    (out : List (String × List SerpResult) × Nat)
    (hout : runSearchE dom num schema = .ok out) :
    ∀ p ∈ out.1, ∀ x ∈ p.2, isTruthy x.link = true := by
  induction schema generalizing num out with
  | nil =>
    unfold runSearchE at hout
    cases hout
    intro p hp
    simp at hp
  | cons entry rest ih =>
    unfold runSearchE at hout
    split at hout
    · exact absurd hout (by simp)
    · next l num' hty =>
      split at hout
      · exact absurd hout (by simp)
      · next tail num'' htail =>
        cases hout
        intro p hp
        rcases List.mem_cons.mp hp with hp | hp
        · subst hp
          exact runTypeVariantsE_truthy_inv entry.2 dom [] num (l, num') (by simp) hty
        · exact ih num' (tail, num'') htail p hp

theorem assocSet_values (l : List (String × List SerpResult)) (k : String)
    (v : List SerpResult) (P : List SerpResult → Prop)
    (hl : ∀ p ∈ l, P p.2) (hv : P v) :
    ∀ p ∈ assocSet l k v, P p.2 := by
  induction l with
  | nil =>
    intro p hp
    simp [assocSet] at hp
    rw [hp]
    exact hv
  | cons e rest ih =>
    intro p hp
    unfold assocSet at hp
    split at hp
    · rcases List.mem_cons.mp hp with hp | hp
      · rw [hp]; exact hv
      · exact hl p (List.mem_cons_of_mem _ hp)
    · rcases List.mem_cons.mp hp with hp | hp
      · rw [hp]; exact hl e (List.mem_cons_self _ _)
      · exact ih (fun q hq => hl q (List.mem_cons_of_mem _ hq)) p hp

theorem foldl_assocSet_values (news : List (String × List SerpResult))
    (base : List (String × List SerpResult)) (P : List SerpResult → Prop)
    (hb : ∀ p ∈ base, P p.2) (hn : ∀ p ∈ news, P p.2) :
    ∀ p ∈ news.foldl (fun acc kv => assocSet acc kv.1 kv.2) base, P p.2 := by
  induction news generalizing base with
  | nil => exact hb
  | cons e rest ih =>
    intro p hp
    refine ih (assocSet base e.1 e.2)
      (assocSet_values base e.1 e.2 P hb (hn e (List.mem_cons_self _ _)))
      (fun q hq => hn q (List.mem_cons_of_mem _ hq)) p hp

/-- C2 (amended): after the extraction phase of a fresh parse, every record
in every results sequence has a truthy (non-None, non-empty) link.  The
claim's extension to the engine-specific normalization phase fails:
GoogleParser.after_parsing can rewrite an accepted link to the empty string
(see the counterexample). -/
theorem extraction_no_empty_link (cfg : ParserCfg) (q h ty : String)
    (dom : Option PyDoc) (st0 st1 : ParserState)
    (h0 : parserInit cfg q h ty = .ok st0)
    (h1 : parserParse cfg dom st0 = .ok st1) :
    ∀ p ∈ st1.search_results, ∀ x ∈ p.2, isTruthy x.link = true := by
  have hs0 : st0.search_results = [] := by
    unfold parserInit at h0
    split at h0
    · cases h0; rfl
    · exact absurd h0 (by simp)
  unfold parserParse at h1
  split at h1
  · exact absurd h1 (by simp)
  · split at h1
    · exact absurd h1 (by simp)
    · exact absurd h1 (by simp)
    · exact absurd h1 (by simp)
    · next schema hschema =>
      split at h1
      · exact absurd h1 (by simp)
      · next newres num' hrun =>
        cases h1
        simp only [hs0]
        exact foldl_assocSet_values newres []
          (fun v => ∀ x ∈ v, isTruthy x.link = true)
          (by intro p hp; simp at hp)
          (fun p hp => runSearchE_truthy_inv schema dom st0.num_results (newres, num') hrun p hp)

/-- C2 (counterexample): a Google normal parse of a page whose organic
anchor href is /url?q=&sa=U&ei=X (an empty q parameter) and which exposes
no visible link accepts the record during extraction, and the
normalization phase rewrites its link to the empty string: a record with
an empty link sits in the final results. -/
theorem google_normalization_empty_link_cex :
    runOk (googleFullRun (some docEmptyQ) "<html>" "q" "normal") = true ∧
    (lookupType (resultsOfRun (googleFullRun (some docEmptyQ) "<html>" "q" "normal"))
        "organic").map SerpResult.link = [some ""] ∧
    isTruthy (some "") = false := by
  refine ⟨by decide, by decide, by decide⟩

/-- The parser states of a concrete Google extraction, used to witness the
extraction-phase invariant. -/
def st0G : ParserState :=
  match parserInit googleCfg "q" "<html>" "normal" with
  | .ok s => s
  | .error _ => default

def st1G : ParserState :=
  match parserParse googleCfg (some docTwoVariantAds) st0G with
  | .ok s => s
  | .error _ => default

/-- Witness for the extraction-phase invariant at a concrete parse. -/
theorem extraction_no_empty_link_w :
    isTruthy (SerpResult.link { link := some "http://a.com", rank := some 1 }) = true :=
  extraction_no_empty_link googleCfg "q" "<html>" "normal" (some docTwoVariantAds) st0G st1G
    rfl rfl
    ("ads_top",
      [ { link := some "http://a.com", rank := some 1 }
      , { link := some "http://b.com", rank := some 1 } ])
    (by decide)
    { link := some "http://a.com", rank := some 1 }
    (by decide)

/-! ## C4: the schema gate of Parser._parse -/

/-- C4 (amended): a missing schema entry (getattr None), or a falsy
non-mapping entry, raises the configuration error after the page-level
scalars and before any candidate node is queried; the search-type
assertion of the constructor likewise raises before any parsing.  An
entry that is an empty mapping raises nothing (see the counterexample),
because the gate requires the entry to be both falsy and not a dict. -/
theorem missing_schema_config_error :
    (∀ (cfg : ParserCfg) (dom : Option PyDoc) (st : ParserState) (ps : PageScalars),
      pageLevel cfg dom = .ok ps →
      (cfg.selectorsFor st.searchtype = SelAttr.missing ∨
        cfg.selectorsFor st.searchtype = SelAttr.nonDict false) →
      parserParse cfg dom st = .error .invalidSearchType) ∧
    (∀ (cfg : ParserCfg) (q h ty : String),
      cfg.search_types.contains ty = false →
      parserInit cfg q h ty = .error .assertionError) := by
  constructor
  · intro cfg dom st ps hps hmiss
    unfold parserParse
    rcases hmiss with hmiss | hmiss <;> rw [hps, hmiss]
  · intro cfg q h ty hty
    have hmem : ty ∉ cfg.search_types := by simpa using hty
    simp [parserInit, hmem]

/-- The parser state of a Google image parse (supported by search_types,
but the class declares no image_search_selectors attribute). -/
def stImg : ParserState :=
  match parserInit googleCfg "q" "<html>" "image" with
  | .ok s => s
  | .error _ => default

/-- Witness: a Google image parse raises the configuration error (the
attribute is missing), and constructing a Google parser for search type
video fails the constructor assertion. -/
theorem missing_schema_config_error_w :
    parserParse googleCfg (some docEmpty) stImg = .error .invalidSearchType ∧
    parserInit googleCfg "q" "<html>" "video" = .error .assertionError :=
  ⟨missing_schema_config_error.1 googleCfg (some docEmpty) stImg
      { num_results_for_query := none, page_number := 0
        effective_query := none, no_results_text := none }
      rfl (Or.inl (by decide)),
   missing_schema_config_error.2 googleCfg "q" "<html>" "video" (by decide)⟩

/-- A parser configuration whose declared search type maps to an empty
selector mapping: the base class documents that subclasses declare
arbitrary *_search_selectors attributes, and the gate of Parser._parse
(if not selector_dict and not isinstance(selector_dict, dict)) lets an
empty dict through because it is a dict. -/
def cfgEmptySchema : ParserCfg :=
  { search_types := ["normal"]
    no_results_selector := []
    effective_query_selector := []
    num_results_search_selectors := []
    page_number_selectors := []
    selectorsFor := fun ty => if ty == "normal" then SelAttr.dict [] else SelAttr.missing }

def emptySchemaRun : Except PyErr ParserState :=
  match parserInit cfgEmptySchema "q" "<html>" "normal" with
  | .error e => .error e
  | .ok st0 => parserParse cfgEmptySchema (some docEmpty) st0

/-- C4 (counterexample): with an empty mapping as the schema entry for the
declared search type, the parse completes without raising any error and
produces no result sequences at all, contradicting the claim that a
configuration error is raised for an empty entry. -/
theorem empty_schema_entry_no_error_cex :
    runOk emptySchemaRun = true ∧ resultsOfRun emptySchemaRun = [] := by
  refine ⟨by decide, by decide⟩

/-! ## C5: document parse failure -/

/-- C5 (evaluation at the failing input): when the lxml document parse of
the html fails (for example whitespace-only html makes document_fromstring
raise, the except block logs the error, and self.dom stays None), the very
next step of Parser._parse, first_match over the num_results selectors,
calls element.xpath on None and raises AttributeError, which nothing
catches: the parse call raises instead of degrading to an outcome with
empty result sequences and default scalars. -/
theorem malformed_html_raises_attribute_error :
    errOfRun (googleFullRun none " " "apple" "normal") = some PyErr.attributeError := by decide

/-! ## C6: the pageNumber scalar -/

/-- C6 (amended): the outcome's pageNumber equals the integer parsed from
the first matching page-number selector, and equals -1 when a selector
matched but its text is not a valid integer; when no selector matches it
equals 0, not -1, because int(False) evaluates to 0 rather than raising
ValueError. -/
theorem page_number_of_outcome (cfg : ParserCfg) (dom : Option PyDoc)
    (st st' : ParserState)
    (h1 : parserParse cfg dom st = .ok st') :
    (firstMatch cfg.page_number_selectors (dom.map PyDoc.root) = .ok none →
      st'.page_number = 0) ∧
    (∀ s k, firstMatch cfg.page_number_selectors (dom.map PyDoc.root) = .ok (some s) →
      pyInt s = some k → st'.page_number = k) ∧
    (∀ s, firstMatch cfg.page_number_selectors (dom.map PyDoc.root) = .ok (some s) →
      pyInt s = none → st'.page_number = -1) := by
  have hinv : ∃ ps, pageLevel cfg dom = .ok ps ∧ st'.page_number = ps.page_number := by
    unfold parserParse at h1
    split at h1
    · exact absurd h1 (by simp)
    · next ps hps =>
      refine ⟨ps, hps, ?_⟩
      split at h1
      · exact absurd h1 (by simp)
      · exact absurd h1 (by simp)
      · exact absurd h1 (by simp)
      · split at h1
        · exact absurd h1 (by simp)
        · cases h1; rfl
  obtain ⟨ps, hps, hpage⟩ := hinv
  have hpm : ∃ pm, firstMatch cfg.page_number_selectors (dom.map PyDoc.root) = .ok pm ∧
      ps.page_number = pageNumberOfMatch pm := by
    unfold pageLevel at hps
    split at hps
    · exact absurd hps (by simp)
    · split at hps
      · exact absurd hps (by simp)
      · next pm hpmeq =>
        split at hps
        · exact absurd hps (by simp)
        · split at hps
          · exact absurd hps (by simp)
          · cases hps; exact ⟨pm, hpmeq, rfl⟩
  obtain ⟨pm, hpmeq, hpn⟩ := hpm
  refine ⟨?_, ?_, ?_⟩
  · intro h0
    rw [hpmeq] at h0
    injection h0 with h0
    subst h0
    simp [hpage, hpn, pageNumberOfMatch]
  · intro s k hs hk
    rw [hpmeq] at hs
    injection hs with hs
    subst hs
    simp [hpage, hpn, pageNumberOfMatch, hk]
  · intro s hs hn
    rw [hpmeq] at hs
    injection hs with hs
    subst hs
    simp [hpage, hpn, pageNumberOfMatch, hn]

/-- The result state of a Google parse of a page displaying page number 3. -/
def st1P : ParserState :=
  match parserParse googleCfg (some docPageThree) st0G with
  | .ok s => s
  | .error _ => default

/-- Witness: the displayed page number 3 is parsed into the outcome. -/
theorem page_number_of_outcome_w : st1P.page_number = 3 :=
  (page_number_of_outcome googleCfg (some docPageThree) st0G st1P rfl).2.1
    "3" 3 (by decide) (by decide)

/-- C6 (counterexample): on a page where no page-number selector matches,
the outcome's pageNumber is 0, not the -1 the claim asserts, because
first_match returns False and int(False) is 0. -/
theorem page_number_absent_zero_cex :
    pageOfRun (googleFullRun (some docEmpty) "<html>" "q" "normal") = 0 ∧
    pageOfRun (googleFullRun (some docEmpty) "<html>" "q" "normal") ≠ -1 := by
  refine ⟨by decide, by decide⟩

/-! ## C7: degenerate-record pruning -/

theorem set_getElem_self_eq {α : Type} (l : List α) (i : Nat) (h : i < l.length) :
    l.set i (l.get ⟨i, h⟩) = l := by
  induction l generalizing i with
  | nil => simp at h
  | cons a as ih =>
    cases i with
    | zero => simp
    | succ i => simpa using ih i (by simpa using h)

theorem count_eraseIdx_ne (l : List SerpResult) (i : Nat) (h : i < l.length)
    (r : SerpResult) (hne : l.get ⟨i, h⟩ ≠ r) :
    (l.eraseIdx i).count r = l.count r := by
  conv_rhs => rw [← List.take_append_drop i l]
  rw [List.eraseIdx_eq_take_drop_succ, List.count_append, List.count_append,
      ← List.getElem_cons_drop l i h, List.count_cons]
  have : ((l.get ⟨i, h⟩) == r) = false := by
    simpa using hne
  simp only [List.get_eq_getElem] at this
  simp [this]

/-- The generator-with-deletion prune loop deletes only visited records
satisfying the visible_link-is-None condition: the output is a sublist of
the input (so every surviving record, its rank included, is unchanged and
in order), and every record not satisfying the condition keeps its exact
multiplicity. -/
theorem iterSerpLoop_prune_inv (fuel : Nat) (l : List SerpResult) (i : Nat) :
    (iterSerpLoop pruneNoVisibleBody fuel l i).Sublist l ∧
    ∀ r : SerpResult, ¬(isTruthy r.link = true ∧ r.visible_link = none) →
      (iterSerpLoop pruneNoVisibleBody fuel l i).count r = l.count r := by
  induction fuel generalizing l i with
  | zero => exact ⟨List.Sublist.refl l, fun r _ => rfl⟩
  | succ fuel ih =>
    unfold iterSerpLoop
    split
    · next h =>
      dsimp only
      split
      · next hlink =>
        split
        · next hbody =>
          have hvis : (l.get ⟨i, h⟩).visible_link = none := by
            simp [pruneNoVisibleBody] at hbody
            exact hbody
          constructor
          · exact ((ih (l.eraseIdx i) (i + 1)).1).trans (List.eraseIdx_sublist l i)
          · intro r hr
            rw [(ih (l.eraseIdx i) (i + 1)).2 r hr]
            exact count_eraseIdx_ne l i h r (fun he => hr (he ▸ ⟨hlink, hvis⟩))
        · next r' hbody =>
          have hr' : r' = l.get ⟨i, h⟩ := by
            simp [pruneNoVisibleBody] at hbody
            exact hbody.2.symm
          rw [hr', set_getElem_self_eq l i h]
          exact ih l (i + 1)
      · exact ih l (i + 1)
    · exact ⟨List.Sublist.refl l, fun r _ => rfl⟩

/-- C7 (amended): the visible_link prune of YahooParser.after_parsing (and
of the guarded Baidu block) iterates the live sequence and deletes in
place; it deletes only records with a truthy link and a None visible_link,
and the surviving records are an in-order sublist of the input with all
fields (ranks included) unchanged — but it does not delete all such
records: after each deletion the immediately following record is skipped,
so a degenerate record can survive (see the counterexample). -/
theorem prune_deletes_only_matching (l : List SerpResult) :
    (runSerpLoop pruneNoVisibleBody l).Sublist l ∧
    ∀ r : SerpResult, ¬(isTruthy r.link = true ∧ r.visible_link = none) →
      (runSerpLoop pruneNoVisibleBody l).count r = l.count r :=
  iterSerpLoop_prune_inv l.length l 0

/-- Witness for the prune theorem at a concrete list: the record with a
visible link keeps its multiplicity. -/
theorem prune_deletes_only_matching_w :
    (runSerpLoop pruneNoVisibleBody
        [ { link := some "http://a.com", visible_link := some "a.com", rank := some 1 }
        , { link := some "http://b.com", rank := some 2 } ]).Sublist
      [ { link := some "http://a.com", visible_link := some "a.com", rank := some 1 }
      , { link := some "http://b.com", rank := some 2 } ] ∧
    (runSerpLoop pruneNoVisibleBody
        [ { link := some "http://a.com", visible_link := some "a.com", rank := some 1 }
        , { link := some "http://b.com", rank := some 2 } ]).count
        { link := some "http://a.com", visible_link := some "a.com", rank := some 1 } =
      ([ { link := some "http://a.com", visible_link := some "a.com", rank := some 1 }
       , { link := some "http://b.com", rank := some 2 } ] : List SerpResult).count
        { link := some "http://a.com", visible_link := some "a.com", rank := some 1 } :=
  ⟨(prune_deletes_only_matching _).1,
   (prune_deletes_only_matching _).2 _ (by decide)⟩

/-- C7 (counterexample): a Baidu normal parse of a page with two adjacent
degenerate organic results (title, snippet and visible link all missing)
prunes only the first: deleting it while iterating the live list makes the
generator skip the shifted second record, which survives although it
satisfies the degeneracy condition — pruning does not remove exactly the
degenerate records and does not behave as if iterating a stable snapshot. -/
theorem prune_skips_after_delete_cex :
    runOk (baiduFullRun (some docBaiduTwoBare) "<html>" "q" "normal") = true ∧
    lookupType (resultsOfRun (baiduFullRun (some docBaiduTwoBare) "<html>" "q" "normal"))
        "organic" = [ { link := some "http://b.com", rank := some 2 } ] ∧
    (isTruthy ({ link := some "http://b.com", rank := some 2 } : SerpResult).title ||
     isTruthy ({ link := some "http://b.com", rank := some 2 } : SerpResult).snippet ||
     isTruthy ({ link := some "http://b.com", rank := some 2 } : SerpResult).visible_link)
      = false := by
  refine ⟨by decide, by decide, by decide⟩

/-! ## C8: engine-name resolution -/

/-- C8 (counterexample): BAIDU is an alias of the Baidu engine under the
case-insensitive predicate the registry uses everywhere else, but
get_parser_by_search_engine raises the unknown-engine error for it,
because the Baidu branch alone compares exactly. -/
theorem baidu_alias_case_sensitive_cex :
    getParserBySearchEngine "BAIDU" = .error .noParserForSearchEngine ∧
    isThisSearchEngine "BAIDU" ["baidu", "baiduimg"] = true ∧
    getParserBySearchEngine "baidu" = .ok .baidu := by
  refine ⟨by decide, by decide, by decide⟩

set_option maxHeartbeats 1600000 in
/-- C8 (amended): engine-name resolution walks the fixed branch order;
every branch matches its alias list case-insensitively except the Baidu
branch, which accepts exactly the strings baidu and baiduimg; the
unknown-engine error is raised if and only if no branch condition holds. -/
theorem engine_name_resolution (s : String) :
    (isThisSearchEngine s ["google", "googleimg"] = true →
      getParserBySearchEngine s = .ok .google) ∧
    ((s = "baidu" ∨ s = "baiduimg") → getParserBySearchEngine s = .ok .baidu) ∧
    (getParserBySearchEngine s = .error .noParserForSearchEngine ↔
      ¬(isThisSearchEngine s ["google", "googleimg"] = true ∨
        s = "baidu" ∨ s = "baiduimg" ∨
        isThisSearchEngine s ["yandex"] = true ∨
        isThisSearchEngine s ["bing"] = true ∨
        isThisSearchEngine s ["yahoo"] = true ∨
        isThisSearchEngine s ["duckduckgo"] = true ∨
        isThisSearchEngine s ["ask"] = true ∨
        isThisSearchEngine s ["blekko"] = true ∨
        isThisSearchEngine s ["youtube"] = true ∨
        isThisSearchEngine s ["youtube_sponsored"] = true)) := by
  refine ⟨?_, ?_, ?_⟩
  · intro h
    unfold getParserBySearchEngine
    rw [if_pos h]
  · intro hs
    have hg : isThisSearchEngine s ["google", "googleimg"] = false := by
      rcases hs with hs | hs <;> subst hs <;> decide
    have hb : (s == "baidu" || s == "baiduimg") = true := by
      rcases hs with hs | hs <;> subst hs <;> decide
    unfold getParserBySearchEngine
    rw [if_neg (by simp [hg]), if_pos hb]
  · unfold getParserBySearchEngine
    split_ifs with h1 h2 h3 h4 h5 h6 h7 h8 h9 h10
    · exact iff_of_false (by simp) (fun hn => hn (Or.inl h1))
    · refine iff_of_false (by simp) (fun hn => hn ?_)
      rcases (Bool.or_eq_true _ _).mp h2 with h | h
      · exact Or.inr (Or.inl (eq_of_beq h))
      · exact Or.inr (Or.inr (Or.inl (eq_of_beq h)))
    · exact iff_of_false (by simp)
        (fun hn => hn (Or.inr (Or.inr (Or.inr (Or.inl h3)))))
    · exact iff_of_false (by simp)
        (fun hn => hn (Or.inr (Or.inr (Or.inr (Or.inr (Or.inl h4))))))
    · exact iff_of_false (by simp)
        (fun hn => hn (Or.inr (Or.inr (Or.inr (Or.inr (Or.inr (Or.inl h5)))))))
    · exact iff_of_false (by simp)
        (fun hn => hn (Or.inr (Or.inr (Or.inr (Or.inr (Or.inr (Or.inr (Or.inl h6))))))))
    · exact iff_of_false (by simp)
        (fun hn => hn (Or.inr (Or.inr (Or.inr (Or.inr (Or.inr (Or.inr (Or.inr (Or.inl h7)))))))))
    · exact iff_of_false (by simp)
        (fun hn => hn (Or.inr (Or.inr (Or.inr (Or.inr (Or.inr (Or.inr (Or.inr (Or.inr (Or.inl h8))))))))))
    · exact iff_of_false (by simp)
        (fun hn => hn (Or.inr (Or.inr (Or.inr (Or.inr (Or.inr (Or.inr (Or.inr (Or.inr (Or.inr (Or.inl h9)))))))))))
    · exact iff_of_false (by simp)
        (fun hn => hn (Or.inr (Or.inr (Or.inr (Or.inr (Or.inr (Or.inr (Or.inr (Or.inr (Or.inr (Or.inr h10)))))))))))
    · refine iff_of_true rfl ?_
      intro hd
      rcases hd with h | h | h | h | h | h | h | h | h | h | h
      · exact h1 h
      · subst h; exact h2 (by decide)
      · subst h; exact h2 (by decide)
      · exact h3 h
      · exact h4 h
      · exact h5 h
      · exact h6 h
      · exact h7 h
      · exact h8 h
      · exact h9 h
      · exact h10 h

/-- Witness for the resolution theorem: a mixed-case Google alias resolves
to the Google variant, and the exact string baiduimg to the Baidu one. -/
theorem engine_name_resolution_w :
    getParserBySearchEngine "GoogleImg" = .ok .google ∧
    getParserBySearchEngine "baiduimg" = .ok .baidu :=
  ⟨(engine_name_resolution "GoogleImg").1 (by decide),
   (engine_name_resolution "baiduimg").2.1 (Or.inr rfl)⟩

/-! ## C9: the Google redirect unwrap -/

/-- The url-cleaning loop never deletes, so it acts pointwise: position j
holds the cleaned record when the original record there has a truthy link
and has already been visited, and the original record otherwise. -/
theorem iterSerpLoop_map_getElem (f : SerpResult → SerpResult) (fuel : Nat)
    (l : List SerpResult) (i : Nat) (hfuel : l.length ≤ fuel + i) :
    ∀ j, (iterSerpLoop (fun r => some (f r)) fuel l i)[j]? =
      (l[j]?).map (fun r => if i ≤ j ∧ isTruthy r.link = true then f r else r) := by
  induction fuel generalizing l i with
  | zero =>
    intro j
    unfold iterSerpLoop
    cases hj : l[j]? with
    | none => simp
    | some r =>
      have hjl : j < l.length := by
        by_contra hc
        rw [List.getElem?_eq_none (by omega)] at hj
        cases hj
      have : ¬(i ≤ j) := by omega
      simp [hj, this]
  | succ fuel ih =>
    intro j
    unfold iterSerpLoop
    split
    · next h =>
      dsimp only
      split
      · next hlink =>
        rw [ih (l.set i (f (l.get ⟨i, h⟩))) (i + 1) (by simp; omega) j]
        by_cases hij : j = i
        · subst hij
          rw [List.getElem?_set_self h, List.getElem?_eq_getElem h]
          have h1 : ¬(j + 1 ≤ j) := by omega
          have h2 : j ≤ j := Nat.le_refl j
          simp only [Option.map_some, h1, false_and, if_false, if_neg]
          simp only [List.get_eq_getElem] at hlink
          simp [h2, hlink]
        · rw [List.getElem?_set_ne (fun he => hij he.symm)]
          cases hjv : l[j]? with
          | none => simp
          | some r =>
            by_cases hcmp : i ≤ j
            · have : i + 1 ≤ j := by omega
              simp [this, hcmp]
            · have h1 : ¬(i + 1 ≤ j) := by omega
              simp [h1, hcmp]
      · next hlink =>
        rw [ih l (i + 1) (by omega) j]
        by_cases hij : j = i
        · subst hij
          rw [List.getElem?_eq_getElem h]
          have h1 : ¬(j + 1 ≤ j) := by omega
          have hbf : isTruthy ((l.get ⟨j, h⟩).link) = false := by
            simpa using hlink
          simp only [List.get_eq_getElem] at hbf
          simp [h1, hbf]
        · cases hjv : l[j]? with
          | none => simp
          | some r =>
            by_cases hcmp : i ≤ j
            · have : i + 1 ≤ j := by omega
              simp [hjv, this, hcmp]
            · have h1 : ¬(i + 1 ≤ j) := by omega
              simp [hjv, h1, hcmp]
    · next h =>
      cases hj : l[j]? with
      | none => simp
      | some r =>
        have hjl : j < l.length := by
          by_contra hc
          rw [List.getElem?_eq_none (by omega)] at hj
          cases hj
        have : ¬(i ≤ j) := by omega
        simp [this]

theorem runSerpLoop_map (f : SerpResult → SerpResult) (l : List SerpResult) :
    ∀ j : Nat, (runSerpLoop (fun r => some (f r)) l)[j]? =
      (l[j]?).map (fun r => if isTruthy r.link = true then f r else r) := by
  intro j
  rw [runSerpLoop, iterSerpLoop_map_getElem f l.length l 0 (by omega) j]
  congr 1
  funext r
  simp

/-- The concrete unwrap of the claim's anchor: for any record whose raw
link is the /url redirect around http://example.com, the cleaned record's
link is http://example.com (the regex captures the url, unquote leaves it
unchanged, and the host check finds the netloc so no visible-link fallback
happens). -/
theorem googleCleanRecord_example (r : SerpResult)
    (h : r.link = some "/url?q=http://example.com&sa=U&ei=XYZ") :
    (googleCleanRecord "/url?q=" "&sa=U&ei=" r).link = some "http://example.com" := by
  obtain ⟨l, t, sn, v, c, p, s2, rk⟩ := r
  simp only at h
  subst h
  rfl

/-- C9: on a Google normal-search parse state, every accepted record whose
raw extracted link is /url?q=http://example.com&sa=U&ei=XYZ ends the
normalization phase with link http://example.com, at the same result type
and position. -/
theorem google_unwrap_redirect (st st' : ParserState)
    (hty : st.searchtype = "normal")
    (hafter : googleAfterParsing st = .ok st')
    (k i : Nat) (name : String) (l : List SerpResult)
    (hk : st.search_results[k]? = some (name, l))
    (r : SerpResult) (hi : l[i]? = some r)
    (hlink : r.link = some "/url?q=http://example.com&sa=U&ei=XYZ") :
    ∃ l', st'.search_results[k]? = some (name, l') ∧
      ∃ r', l'[i]? = some r' ∧ r'.link = some "http://example.com" := by
  have hst' : st'.search_results =
      mapSerpLoop (fun r => some (googleCleanRecord "/url?q=" "&sa=U&ei=" r))
        st.search_results := by
    unfold googleAfterParsing at hafter
    rw [hty] at hafter
    simp only [googleCleanRegexFor] at hafter
    simp at hafter
    rw [← hafter]
  refine ⟨runSerpLoop (fun r => some (googleCleanRecord "/url?q=" "&sa=U&ei=" r)) l, ?_, ?_⟩
  · rw [hst']
    simp only [mapSerpLoop, List.getElem?_map, hk, Option.map_some]
    rfl
  · refine ⟨googleCleanRecord "/url?q=" "&sa=U&ei=" r, ?_, googleCleanRecord_example r hlink⟩
    rw [runSerpLoop_map, hi]
    have htr : isTruthy r.link = true := by rw [hlink]; rfl
    simp [htr]

/-- A Google normal parse state with one organic record carrying the raw
redirect link of the claim. -/
def stC9 : ParserState :=
  { (default : ParserState) with
    searchtype := "normal"
    search_results :=
      [("organic",
        [ { link := some "/url?q=http://example.com&sa=U&ei=XYZ", rank := some 1 } ])] }

def stC9' : ParserState :=
  match googleAfterParsing stC9 with
  | .ok s => s
  | .error _ => default

/-- Witness: the concrete record is unwrapped to http://example.com. -/
theorem google_unwrap_redirect_w :
    ∃ l', stC9'.search_results[0]? = some ("organic", l') ∧
      ∃ r', l'[0]? = some r' ∧ r'.link = some "http://example.com" :=
  google_unwrap_redirect stC9 stC9' rfl rfl 0 0 "organic"
    [ { link := some "/url?q=http://example.com&sa=U&ei=XYZ", rank := some 1 } ]
    rfl { link := some "/url?q=http://example.com&sa=U&ei=XYZ", rank := some 1 } rfl rfl

/-! ## C10: the shadowed search_engine attribute -/

theorem parserInit_fields (cfg : ParserCfg) (q h ty : String) (st0 : ParserState)
    (h0 : parserInit cfg q h ty = .ok st0) :
    st0.search_engine = "" ∧ st0.no_results = false ∧
    st0.search_results = [] ∧ st0.searchtype = ty := by
  unfold parserInit at h0
  split at h0
  · cases h0; exact ⟨rfl, rfl, rfl, rfl⟩
  · exact absurd h0 (by simp)

theorem parserParse_preserves (cfg : ParserCfg) (dom : Option PyDoc)
    (st st' : ParserState) (h1 : parserParse cfg dom st = .ok st') :
    st'.search_engine = st.search_engine ∧ st'.no_results = st.no_results ∧
    st'.searchtype = st.searchtype := by
  unfold parserParse at h1
  split at h1
  · exact absurd h1 (by simp)
  · split at h1
    · exact absurd h1 (by simp)
    · exact absurd h1 (by simp)
    · exact absurd h1 (by simp)
    · split at h1
      · exact absurd h1 (by simp)
      · cases h1; exact ⟨rfl, rfl, rfl⟩

/-- C10: Parser.__init__ assigns the instance attribute search_engine the
empty string regardless of the class-level identifier of the subclass
(shadowing BaiduParser.search_engine = baidu), and _parse never writes it;
consequently the branch of BaiduParser.after_parsing guarded by
search_engine == normal never executes on any parse: after_parsing
succeeds, no_results keeps its initial value false, and the results are
exactly those of the first clean loop — the visible_link-is-None prune of
that branch is never applied. -/
theorem baidu_search_engine_shadowed (cfg : ParserCfg) (q h ty : String)
    (dom : Option PyDoc) (st0 st1 : ParserState)
    (h0 : parserInit cfg q h ty = .ok st0)
    (h1 : parserParse cfg dom st0 = .ok st1) :
    st0.search_engine = "" ∧
    st1.search_engine = "" ∧
    st1.search_engine ≠ BaiduParser.search_engine ∧
    ∃ st2, baiduAfterParsing st1 = .ok st2 ∧
      st2.no_results = false ∧ st2.search_engine = "" ∧
      st2.search_results = mapSerpLoop baiduCleanBody st1.search_results := by
  obtain ⟨hse0, hnr0, -, -⟩ := parserInit_fields cfg q h ty st0 h0
  obtain ⟨hse1, hnr1, -⟩ := parserParse_preserves cfg dom st0 st1 h1
  have hse : st1.search_engine = "" := by rw [hse1, hse0]
  have hnr : st1.no_results = false := by rw [hnr1, hnr0]
  refine ⟨hse0, hse, by simp [hse, BaiduParser.search_engine], ?_⟩
  refine ⟨{ st1 with search_results := mapSerpLoop baiduCleanBody st1.search_results }, ?_, ?_, ?_, rfl⟩
  · unfold baiduAfterParsing
    have hcond : (({ st1 with
        search_results := mapSerpLoop baiduCleanBody st1.search_results
      } : ParserState).search_engine == "normal") = false := by
      simp [hse]
    rw [if_neg (by simp [hcond] : ¬ _)]
  · exact hnr
  · exact hse

/-- The states of a concrete Baidu parse, for the shadowing witness. -/
def stB0 : ParserState :=
  match parserInit baiduCfg "q" "<html>" "normal" with
  | .ok s => s
  | .error _ => default

def stB1 : ParserState :=
  match parserParse baiduCfg (some docBaiduTwoBare) stB0 with
  | .ok s => s
  | .error _ => default

/-- Witness: the shadowing consequences on a concrete Baidu parse. -/
theorem baidu_search_engine_shadowed_w :
    stB0.search_engine = "" ∧
    stB1.search_engine = "" ∧
    stB1.search_engine ≠ BaiduParser.search_engine ∧
    ∃ st2, baiduAfterParsing stB1 = .ok st2 ∧
      st2.no_results = false ∧ st2.search_engine = "" ∧
      st2.search_results = mapSerpLoop baiduCleanBody stB1.search_results :=
  baidu_search_engine_shadowed baiduCfg "q" "<html>" "normal"
    (some docBaiduTwoBare) stB0 stB1 rfl rfl
